import Mathlib

/-!
Verification of the airport ticket-booking API's validation, authorization and
cache-invalidation core, shallowly embedded from the Django/DRF sources
(`airport/models.py`, `airport/serializers.py`, `airport/views.py`,
`airport/permissions.py`, `airport/signals.py`).

Times are modelled as integers counting seconds; `timedelta(minutes=10)` is
600. Database rows carry natural-number identifiers in place of UUIDs.
-/

namespace AirportApi

/-- Seat configuration of an airplane: the fields of the `Airplane` model that
its validation logic reads (`rows`, `seats_in_row`, both positive small
integers in the schema, here naturals). -/
structure Airplane where
  rows : Nat
  seats_in_row : Nat
deriving DecidableEq, Repr

/-- ASCII lowercasing of one character, as Python's `str.lower` acts on the
field names used here. -/
def lowerChar (c : Char) : Char :=
  if 'A' ≤ c ∧ c ≤ 'Z' then Char.ofNat (c.toNat + 32) else c

/-- Python's `field_name.lower()` on the ASCII field names of this code base. -/
def lowerString (s : String) : String :=
  String.mk (s.data.map lowerChar)

/-- Loop body of `Ticket.validate_ticket_position` in `airport/models.py`:
walk the list `[(row, airplane.rows, "row"), (seat, airplane.seats_in_row,
"seat")]` and raise, at the first entry whose value is outside
`1 <= value <= max_value`, a field-scoped error keyed by the lowercased field
name with message `"{field_name} must be between 1 and {max_value}."`. -/
def firstPositionError : List (Nat × Nat × String) → Option (String × String)
  | [] => none
  | (value, maxValue, fieldName) :: rest =>
    if 1 ≤ value ∧ value ≤ maxValue then firstPositionError rest
    else some (lowerString fieldName,
      fieldName ++ " must be between 1 and " ++ toString maxValue ++ ".")

/-- Static method `Ticket.validate_ticket_position(row, seat, airplane,
error_to_raise)` of `airport/models.py`: `none` means the checks passed,
`some (field, message)` means the error the method raises. -/
def validate_ticket_position (row seat : Nat) (airplane : Airplane) :
    Option (String × String) :=
  firstPositionError
    [(row, airplane.rows, "row"), (seat, airplane.seats_in_row, "seat")]

/-- Body of `RouteSerializer.validate` in `airport/serializers.py`: reject a
route whose source equals its destination (error on `destination`), then a
route whose distance exceeds 20000 (error on `distance`). -/
def routeSerializerValidate (source destination distance : Nat) :
    Option (String × String) :=
  if source = destination then
    some ("destination", "Source and destination airports cannot be the same")
  else if distance > 20000 then
    some ("distance", "Distance cannot exceed 20,000 km")
  else none

/-- Body of `Route.clean` in `airport/models.py`; it performs the same two
checks as `RouteSerializer.validate`, in the same order. -/
def routeClean (source destination distance : Nat) :
    Option (String × String) :=
  if source = destination then
    some ("destination", "Source and destination airports cannot be the same")
  else if distance > 20000 then
    some ("distance", "Distance cannot exceed 20,000 km")
  else none

theorem rowLowerEq : lowerString "row" = "row" := by decide

theorem seatLowerEq : lowerString "seat" = "seat" := by decide

/-- C1: validation of a ticket position against an airplane fails exactly when
the row is outside `[1, rows]` or the seat is outside `[1, seats_in_row]`, and
the raised error names the offending field and its valid range `1..max`. -/
theorem validate_ticket_position_spec (row seat : Nat) (ap : Airplane) :
    (validate_ticket_position row seat ap = none ↔
      (1 ≤ row ∧ row ≤ ap.rows ∧ 1 ≤ seat ∧ seat ≤ ap.seats_in_row))
    ∧ (¬ (1 ≤ row ∧ row ≤ ap.rows) →
        validate_ticket_position row seat ap =
          some ("row", "row must be between 1 and " ++ toString ap.rows ++ "."))
    ∧ ((1 ≤ row ∧ row ≤ ap.rows) → ¬ (1 ≤ seat ∧ seat ≤ ap.seats_in_row) →
        validate_ticket_position row seat ap =
          some ("seat",
            "seat must be between 1 and " ++ toString ap.seats_in_row ++ ".")) := by
  by_cases h1 : 1 ≤ row ∧ row ≤ ap.rows
  · by_cases h2 : 1 ≤ seat ∧ seat ≤ ap.seats_in_row
    · simp only [validate_ticket_position, firstPositionError, if_pos h1, if_pos h2]
      refine ⟨by tauto, by tauto, by tauto⟩
    · simp [validate_ticket_position, firstPositionError, h1, h2, seatLowerEq]
  · simp [validate_ticket_position, firstPositionError, h1, rowLowerEq]
    omega

theorem validate_ticket_position_spec_witness :
    validate_ticket_position 0 1 ⟨2, 3⟩ =
      some ("row", "row must be between 1 and 2.")
    ∧ validate_ticket_position 1 9 ⟨2, 3⟩ =
      some ("seat", "seat must be between 1 and 3.") :=
  ⟨(validate_ticket_position_spec 0 1 ⟨2, 3⟩).2.1 (by decide),
   (validate_ticket_position_spec 1 9 ⟨2, 3⟩).2.2 (by decide) (by decide)⟩

/-- C8: route validation fails on the `destination` field when source equals
destination, fails on the `distance` field when the distance exceeds 20000,
and passes when the airports are distinct and the distance is at most 20000;
this holds for both the serializer check and the model `clean` check. -/
theorem route_validation_spec (s d dist : Nat) :
    (s = d →
      routeSerializerValidate s d dist =
        some ("destination", "Source and destination airports cannot be the same")
      ∧ routeClean s d dist =
        some ("destination", "Source and destination airports cannot be the same"))
    ∧ (s ≠ d → 20000 < dist →
      routeSerializerValidate s d dist =
        some ("distance", "Distance cannot exceed 20,000 km")
      ∧ routeClean s d dist =
        some ("distance", "Distance cannot exceed 20,000 km"))
    ∧ (s ≠ d → dist ≤ 20000 →
      routeSerializerValidate s d dist = none ∧ routeClean s d dist = none) := by
  refine ⟨fun h => ?_, fun h1 h2 => ?_, fun h1 h2 => ?_⟩
  · simp [routeSerializerValidate, routeClean, h]
  · simp [routeSerializerValidate, routeClean, h1, h2]
  · simp [routeSerializerValidate, routeClean, h1]
    omega

theorem route_validation_spec_witness :
    routeSerializerValidate 1 1 10 =
      some ("destination", "Source and destination airports cannot be the same")
    ∧ routeSerializerValidate 1 2 20001 =
      some ("distance", "Distance cannot exceed 20,000 km")
    ∧ routeSerializerValidate 1 2 4000 = none :=
  ⟨((route_validation_spec 1 1 10).1 rfl).1,
   ((route_validation_spec 1 2 20001).2.1 (by decide) (by decide)).1,
   ((route_validation_spec 1 2 4000).2.2 (by decide) (by decide)).1⟩

/-- Fields of a `Flight` row that the ticket write path reads: its identity,
its airplane configuration, and its departure and arrival times (seconds). -/
structure FlightRec where
  id : Nat
  airplane : Airplane
  departure_time : Int
  arrival_time : Int
deriving DecidableEq, Repr

/-- Deserialized payload of `TicketSerializer`: its writable fields are
exactly `row`, `seat` and `flight` (`Meta.fields` in `airport/serializers.py`
lists `id`, `row`, `seat`, `flight`, with `id` read-only; there is no `order`
field). -/
structure TicketAttrs where
  row : Nat
  seat : Nat
  flight : FlightRec
deriving DecidableEq, Repr

/-- Outcome of running one ticket payload through `TicketSerializer.validate`:
validated attributes, a field-scoped validation error, or an uncaught Python
exception (a crash that surfaces as a 500 response). -/
inductive TicketValidateOutcome where
  | ok (validated : TicketAttrs)
  | invalid (field : String) (message : String)
  | crash (message : String)
deriving DecidableEq, Repr

/-- Attribute names defined on the `Ticket` model class in
`airport/models.py`: its fields, the `seat_number` property, the static
validator `validate_ticket_position`, and `clean`. No attribute named
`validate_ticket` exists anywhere on the class. -/
def ticketModelAttributeNames : List String :=
  ["row", "seat", "flight", "order", "seat_number",
   "validate_ticket_position", "clean"]

/-- Checks written in the body of `TicketSerializer.validate`
(`airport/serializers.py`), with its helper call resolved to the only
validator the model defines (`validate_ticket_position`): the seat-position
check followed by the past-flight check `departure_time <= now`. The body
contains no minimum-lead-time check. -/
def ticketSerializerValidateChecks (attrs : TicketAttrs) (now : Int) :
    TicketValidateOutcome :=
  match validate_ticket_position attrs.row attrs.seat attrs.flight.airplane with
  | some (f, m) => .invalid f m
  | none =>
    if attrs.flight.departure_time ≤ now then
      .invalid "flight" "Cannot create ticket for past flights"
    else .ok attrs

/-- Full behaviour of `TicketSerializer.validate`: the body begins with the
call `Ticket.validate_ticket(...)`, so Python first looks the name
`validate_ticket` up among the attributes of the `Ticket` class; the lookup
fails and raises `AttributeError` before any check runs. -/
def ticketSerializerValidate (attrs : TicketAttrs) (now : Int) :
    TicketValidateOutcome :=
  if "validate_ticket" ∈ ticketModelAttributeNames then
    ticketSerializerValidateChecks attrs now
  else
    .crash "AttributeError: type object Ticket has no attribute validate_ticket"

/-- Constant `minimum_time_before_departure = timedelta(minutes=10)` of
`Ticket.clean`, in seconds. -/
def minimumTimeBeforeDeparture : Int := 600

/-- Method `Ticket.clean` of `airport/models.py`: seat-position check, then
rejection of an already-departed flight, then rejection of a flight departing
within the next ten minutes. Django only runs it through `full_clean`; the
API write paths never call it (`Ticket.objects.create` does not). -/
def ticketClean (attrs : TicketAttrs) (now : Int) : Option (String × String) :=
  match validate_ticket_position attrs.row attrs.seat attrs.flight.airplane with
  | some e => some e
  | none =>
    if attrs.flight.departure_time ≤ now then
      some ("flight", "Cannot create ticket. Flight has already departed")
    else if attrs.flight.departure_time ≤ now + minimumTimeBeforeDeparture then
      some ("flight",
        "Warning: Flight departs in less than 0:10:00 minutes. You not have enough time to board.")
    else none

/-- Persisted `Order` row: identity and owning user. -/
structure OrderRec where
  id : Nat
  user : Nat
deriving DecidableEq, Repr

/-- Persisted `Ticket` row. -/
structure TicketRec where
  id : Nat
  row : Nat
  seat : Nat
  flightId : Nat
  orderId : Nat
deriving DecidableEq, Repr

/-- The relational store as the write paths see it: order and ticket tables. -/
structure Store where
  orders : List OrderRec
  tickets : List TicketRec
deriving DecidableEq, Repr

/-- Outcome of validating the nested `tickets` list of `OrderSerializer`
(`TicketSerializer(many=True, allow_empty=False)`): the index of the first
failing payload is recorded; an uncaught exception from a child aborts the
whole validation at once. -/
inductive TicketsValidateOutcome where
  | ok (validated : List TicketAttrs)
  | invalid (index : Nat) (field : String) (message : String)
  | crash (message : String)
deriving DecidableEq, Repr

/-- Run `TicketSerializer.validate` over the payloads of a nested list,
numbering them from `index`. -/
def validateTicketsFrom (now : Int) : Nat → List TicketAttrs → TicketsValidateOutcome
  | _, [] => .ok []
  | index, a :: rest =>
    match ticketSerializerValidate a now with
    | .crash m => .crash m
    | .invalid f m => .invalid index f m
    | .ok v =>
      match validateTicketsFrom now (index + 1) rest with
      | .ok vs => .ok (v :: vs)
      | r => r

/-- Validation stage of `OrderSerializer` on the nested tickets payload:
`allow_empty=False` rejects an empty list, otherwise each nested payload runs
through `TicketSerializer.validate`. -/
def orderSerializerIsValid (ticketsPayload : List TicketAttrs) (now : Int) :
    TicketsValidateOutcome :=
  if ticketsPayload.isEmpty then
    .invalid 0 "tickets" "This list may not be empty."
  else validateTicketsFrom now 0 ticketsPayload

/-- Response of a write endpoint: 201 with the created order, 400 with the
failing index and field, or an uncaught exception surfacing as 500. -/
inductive ApiResponse where
  | created (objectId : Nat)
  | badRequest (index : Nat) (field : String)
  | serverError (message : String)
deriving DecidableEq, Repr

/-- Storage-level uniqueness constraint `(flight, row, seat)` on tickets. -/
def seatTaken (ts : List TicketRec) (flightId row seat : Nat) : Bool :=
  ts.any fun t => t.flightId == flightId && t.row == row && t.seat == seat

/-- The ticket-creation loop of `OrderSerializer.create`: insert each ticket
via `Ticket.objects.create(order=order, **ticket_data)` (no validation); a
duplicate `(flight, row, seat)` raises `IntegrityError`, modelled as `none`,
which aborts the surrounding transaction. -/
def insertTickets (orderId : Nat) :
    Nat → List TicketAttrs → List TicketRec → Option (List TicketRec)
  | _, [], acc => some acc
  | nextId, a :: rest, acc =>
    if seatTaken acc a.flight.id a.row a.seat then none
    else insertTickets orderId (nextId + 1) rest
      (acc ++ [⟨nextId, a.row, a.seat, a.flight.id, orderId⟩])

/-- Create stage of order creation: `OrderViewSet.perform_create` calls
`serializer.save(user=self.request.user)`, and `OrderSerializer.create` runs
inside `transaction.atomic()`, creating the order and then each nested
ticket; a failure rolls the whole transaction back (store unchanged). -/
def orderPerformCreate (requester : Nat) (validated : List TicketAttrs)
    (freshOrderId freshTicketId : Nat) (store : Store) : Store × ApiResponse :=
  let order : OrderRec := ⟨freshOrderId, requester⟩
  match insertTickets freshOrderId freshTicketId validated store.tickets with
  | none => (store, .serverError "IntegrityError")
  | some ts =>
    ({ orders := store.orders ++ [order], tickets := ts }, .created freshOrderId)

/-- POST `/orders/` end to end: `OrderSerializer.Meta.fields` is
`("id", "created_at", "tickets")`, so a client-supplied `user` value
(`payloadUser`) is not a writable field and is discarded at deserialization;
validation runs before any write; on success `perform_create` persists the
order under the requesting user. -/
def orderCreateEndpoint (requester : Nat) (ticketsPayload : List TicketAttrs)
    (payloadUser : Option Nat) (now : Int) (freshOrderId freshTicketId : Nat)
    (store : Store) : Store × ApiResponse :=
  match payloadUser, orderSerializerIsValid ticketsPayload now with
  | _, .crash m => (store, .serverError m)
  | _, .invalid index f _m => (store, .badRequest index f)
  | _, .ok validated =>
    orderPerformCreate requester validated freshOrderId freshTicketId store

/-- Value of `serializer.validated_data["order"]` inside
`TicketViewSet.perform_create`: since `order` is not among the fields of
`TicketSerializer`, `validated_data` never binds that key and the lookup
raises `KeyError`, modelled by `none`. -/
def ticketValidatedDataOrder (_validated : TicketAttrs) : Option OrderRec :=
  none

/-- POST `/tickets/` end to end (`TicketViewSet.perform_create` in
`airport/views.py`): serializer validation first; then the `order` lookup in
`validated_data`; if it resolved, the ownership comparison
`order.user != self.request.user`; note that no branch calls
`serializer.save()`, so the store is returned unchanged on every path. -/
def ticketPostEndpoint (requester : Nat) (attrs : TicketAttrs) (now : Int)
    (store : Store) : Store × ApiResponse :=
  match ticketSerializerValidate attrs now with
  | .crash m => (store, .serverError m)
  | .invalid f _m => (store, .badRequest 0 f)
  | .ok v =>
    match ticketValidatedDataOrder v with
    | none => (store, .serverError "KeyError: order")
    | some order =>
      if order.user != requester then (store, .badRequest 0 "order")
      else (store, .created 0)

/-- C2: evaluation of the ticket write path on a flight departing 300 seconds
after `now`. The claim says such a creation always fails with an error on the
`flight` field; instead the serializer crashes with `AttributeError` (the
called `Ticket.validate_ticket` does not exist), the serializer body itself
would accept the payload (it checks only `departure_time <= now`), and the
ten-minute rule lives only in `Ticket.clean`, which the write path never
invokes. -/
theorem ticket_timing_not_enforced_on_write_path :
    ticketSerializerValidate ⟨1, 1, ⟨2, ⟨10, 6⟩, 300, 4000⟩⟩ 0 =
      .crash "AttributeError: type object Ticket has no attribute validate_ticket"
    ∧ ticketSerializerValidateChecks ⟨1, 1, ⟨2, ⟨10, 6⟩, 300, 4000⟩⟩ 0 =
      .ok ⟨1, 1, ⟨2, ⟨10, 6⟩, 300, 4000⟩⟩
    ∧ ticketClean ⟨1, 1, ⟨2, ⟨10, 6⟩, 300, 4000⟩⟩ 0 =
      some ("flight",
        "Warning: Flight departs in less than 0:10:00 minutes. You not have enough time to board.") :=
  ⟨rfl, rfl, rfl⟩

/-- C3: evaluation of order creation. With one fully valid nested ticket the
claim says the order and ticket persist (201); with an out-of-range ticket it
says a 400 naming that ticket's field is returned. In both cases the code
instead crashes with `AttributeError` inside nested validation, persisting
nothing and naming no field. -/
theorem order_create_path_crashes :
    orderCreateEndpoint 7 [⟨2, 2, ⟨1, ⟨10, 6⟩, 86400, 93600⟩⟩] none 0 1 1 ⟨[], []⟩ =
      (⟨[], []⟩,
        .serverError "AttributeError: type object Ticket has no attribute validate_ticket")
    ∧ orderCreateEndpoint 7 [⟨11, 1, ⟨1, ⟨10, 6⟩, 86400, 93600⟩⟩] none 0 1 1 ⟨[], []⟩ =
      (⟨[], []⟩,
        .serverError "AttributeError: type object Ticket has no attribute validate_ticket") :=
  ⟨rfl, rfl⟩

/-- C6: evaluation of POST `/tickets/`. For a regular user posting a valid
ticket to their own order the claim says the ownership check runs and the
ticket is created (201, persisted); instead the endpoint crashes in
validation, and in fact no execution of the endpoint ever persists anything,
because `perform_create` never calls `serializer.save()`. -/
theorem ticket_post_never_persists :
    ticketPostEndpoint 7 ⟨2, 2, ⟨1, ⟨10, 6⟩, 86400, 93600⟩⟩ 0 ⟨[⟨1, 7⟩], []⟩ =
      (⟨[⟨1, 7⟩], []⟩,
        .serverError "AttributeError: type object Ticket has no attribute validate_ticket")
    ∧ ∀ (requester : Nat) (attrs : TicketAttrs) (now : Int) (store : Store),
        (ticketPostEndpoint requester attrs now store).1 = store := by
  refine ⟨rfl, ?_⟩
  intro requester attrs now store
  have hmem : ¬ ("validate_ticket" ∈ ticketModelAttributeNames) := by decide
  simp [ticketPostEndpoint, ticketSerializerValidate, hmem]

/-- C10: the requesting user owns every order the write path creates: the
endpoint is insensitive to any client-supplied `user` value (not a writable
field), and every order row added by the create stage carries
`user = requester`. -/
theorem order_owner_is_requester :
    (∀ (requester : Nat) (ticketsPayload : List TicketAttrs) (u : Nat)
        (now : Int) (freshOrderId freshTicketId : Nat) (store : Store),
      orderCreateEndpoint requester ticketsPayload (some u) now
          freshOrderId freshTicketId store =
        orderCreateEndpoint requester ticketsPayload none now
          freshOrderId freshTicketId store)
    ∧ (∀ (requester : Nat) (validated : List TicketAttrs)
        (freshOrderId freshTicketId : Nat) (store : Store) (o : OrderRec),
      o ∈ (orderPerformCreate requester validated
            freshOrderId freshTicketId store).1.orders →
        o ∈ store.orders ∨ o.user = requester) := by
  constructor
  · intro requester ticketsPayload u now freshOrderId freshTicketId store
    unfold orderCreateEndpoint
    cases orderSerializerIsValid ticketsPayload now <;> rfl
  · intro requester validated freshOrderId freshTicketId store o h
    unfold orderPerformCreate at h
    cases hins : insertTickets freshOrderId freshTicketId validated store.tickets with
    | none => rw [hins] at h; exact Or.inl h
    | some ts =>
      rw [hins] at h
      simp only [List.mem_append, List.mem_singleton] at h
      rcases h with h | h
      · exact Or.inl h
      · subst h; exact Or.inr rfl

theorem order_owner_is_requester_witness :
    (⟨5, 9⟩ : OrderRec) ∈
      (orderPerformCreate 9 [] 5 0 ⟨[], []⟩).1.orders
    ∧ ((⟨5, 9⟩ : OrderRec) ∈ (⟨[], []⟩ : Store).orders
        ∨ (⟨5, 9⟩ : OrderRec).user = 9) :=
  ⟨by decide,
   order_owner_is_requester.2 9 [] 5 0 ⟨[], []⟩ ⟨5, 9⟩ (by decide)⟩

/-- Actor tiers distinguished by the permission classes: they test only
`request.user.is_authenticated` and `request.user.is_staff`. -/
inductive Actor where
  | anonymous
  | regular
  | staff
deriving DecidableEq, Repr, Fintype

/-- HTTP methods of the resource surface. DRF's `SAFE_METHODS` is
`("GET", "HEAD", "OPTIONS")`; `HEAD` and `OPTIONS` are not modelled. -/
inductive HttpMethod where
  | get
  | post
  | put
  | patch
  | delete
deriving DecidableEq, Repr, Fintype

/-- Membership of the request method in `SAFE_METHODS`. -/
def isSafeMethod (m : HttpMethod) : Bool := m == .get

def isAuthenticated : Actor → Bool
  | .anonymous => false
  | _ => true

def isStaff : Actor → Bool
  | .staff => true
  | _ => false

/-- Class `IsAdminOrReadOnly` of `airport/permissions.py`: safe methods are
open to everyone (anonymous included); any other method requires a staff
user. Nothing in its body singles the DELETE method out. -/
def isAdminOrReadOnly (a : Actor) (m : HttpMethod) : Bool :=
  if isSafeMethod m then true else isStaff a

/-- Class `IsAdminOrAuthenticatedReadOnly` of `airport/permissions.py`:
anonymous users are denied outright; staff may use any method except DELETE;
other authenticated users only safe methods. -/
def isAdminOrAuthenticatedReadOnly (a : Actor) (m : HttpMethod) : Bool :=
  if !isAuthenticated a then false
  else if isStaff a then m != .delete
  else isSafeMethod m

/-- Class `IsAdminOrAuthenticatedCreateOnly` of `airport/permissions.py`:
anonymous users are denied outright; staff may use any method except DELETE;
other authenticated users safe methods plus POST. -/
def isAdminOrAuthenticatedCreateOnly (a : Actor) (m : HttpMethod) : Bool :=
  if !isAuthenticated a then false
  else if isStaff a then m != .delete
  else isSafeMethod m || m == .post

/-- The eight resource classes of the router in `airport/urls.py`. -/
inductive ResourceKind where
  | airport
  | airplaneType
  | airplane
  | crew
  | route
  | flight
  | order
  | ticket
deriving DecidableEq, Repr, Fintype

/-- Permission class each viewset sets in `airport/views.py`: `FlightViewSet`
uses `IsAdminOrReadOnly`; `OrderViewSet` and `TicketViewSet` use
`IsAdminOrAuthenticatedCreateOnly`; every other viewset inherits
`IsAdminOrAuthenticatedReadOnly` from `BaseViewSet`. -/
def permissionFor : ResourceKind → Actor → HttpMethod → Bool
  | .flight => isAdminOrReadOnly
  | .order => isAdminOrAuthenticatedCreateOnly
  | .ticket => isAdminOrAuthenticatedCreateOnly
  | _ => isAdminOrAuthenticatedReadOnly

/-- Every viewset extends `BaseViewSet`, which mixes in create, list,
retrieve and update but no `DestroyModelMixin`; the router therefore binds
GET, POST, PUT and PATCH and leaves DELETE without a handler, for every
resource including Flight. -/
def viewsetHandlesMethod (m : HttpMethod) : Bool := m != .delete

/-- Status code of a request as DRF dispatches it: authentication and the
permission gate run first (401 for a denied anonymous request, 403 for a
denied authenticated one); only then is the handler looked up, so a method
the router never bound yields 405; a routed, permitted request succeeds
(201 for POST, otherwise 200). -/
def dispatch (r : ResourceKind) (a : Actor) (m : HttpMethod) : Nat :=
  if permissionFor r a m = false then
    if isAuthenticated a then 403 else 401
  else if viewsetHandlesMethod m then
    if m == .post then 201 else 200
  else 405

/-- C4 counterexample: a staff DELETE on a Flight does not succeed with
204 or 200; no viewset has a destroy action, so it returns 405. -/
theorem flight_delete_counterexample :
    dispatch .flight .staff .delete = 405
    ∧ dispatch .flight .staff .delete ≠ 204
    ∧ dispatch .flight .staff .delete ≠ 200 := by decide

/-- C4 amended: DELETE is denied for every actor on every resource class,
Flight included. On Flight a staff DELETE passes the permission layer but
hits no handler (405); on every other resource an authenticated actor,
staff included, receives 403; an anonymous actor always receives 401. -/
theorem delete_always_denied :
    ∀ (r : ResourceKind) (a : Actor),
      dispatch r a .delete =
        if a = .anonymous then 401
        else if r = .flight ∧ a = .staff then 405
        else 403 := by decide

/-- The resource tier served by `BaseViewSet` with its default permission
class. -/
def baseTierResources : List ResourceKind :=
  [.airport, .airplaneType, .airplane, .crew, .route]

/-- C5 counterexample: an anonymous GET on Airport is rejected with 401,
not answered with 200; `IsAdminOrAuthenticatedReadOnly` denies every
unauthenticated request, reads included. -/
theorem anonymous_airport_get_counterexample :
    dispatch .airport .anonymous .get = 401
    ∧ dispatch .airport .anonymous .get ≠ 200 := by decide

/-- C5 amended: on the Airport, AirplaneType, Airplane, Crew and Route tier,
an anonymous actor is denied every action with 401 (reads included), a
regular authenticated actor may only read (create and update are 403), and a
staff actor may read, create and update but never delete (403). -/
theorem base_tier_policy :
    ∀ r ∈ baseTierResources, ∀ (m : HttpMethod),
      dispatch r .anonymous m = 401
      ∧ dispatch r .regular m = (if m = .get then 200 else 403)
      ∧ dispatch r .staff m =
          (if m = .get then 200
           else if m = .post then 201
           else if m = .delete then 403
           else 200) := by decide

theorem base_tier_policy_witness :
    ResourceKind.airport ∈ baseTierResources
    ∧ dispatch .airport .anonymous .get = 401 :=
  ⟨by decide, (base_tier_policy .airport (by decide) .get).1⟩

/-- The cache namespaces named by the specification. -/
inductive CacheNamespace where
  | airport
  | airplane_type
  | airplane
  | crew
  | route
  | flight
  | order
  | ticket
deriving DecidableEq, Repr, Fintype

/-- Patterns each mutation receiver in `airport/signals.py` passes to
`cache.delete_pattern`, by sender model; both `post_save` and `post_delete`
run the same receiver. -/
def cacheDeletePatterns : ResourceKind → List String
  | .airport => ["*airport_view*"]
  | .airplaneType => ["*airplane_type_view*", "*flight_view*"]
  | .airplane => ["*airplane_view*", "*flight_view*"]
  | .crew => ["*crew_view*", "*flight_view*"]
  | .route => ["*route_view*"]
  | .flight => ["*flight_view*", "*route_view*"]
  | .order => ["*order_view*", "*ticket_view*"]
  | .ticket => ["*ticket_view*", "*flight_view*"]

/-- Key pattern corresponding to each cache namespace. -/
def namespacePattern : CacheNamespace → String
  | .airport => "*airport_view*"
  | .airplane_type => "*airplane_type_view*"
  | .airplane => "*airplane_view*"
  | .crew => "*crew_view*"
  | .route => "*route_view*"
  | .flight => "*flight_view*"
  | .order => "*order_view*"
  | .ticket => "*ticket_view*"

/-- Whether mutating an entity of kind `k` purges the namespace `n`. -/
def purgesNamespace (k : ResourceKind) (n : CacheNamespace) : Bool :=
  (cacheDeletePatterns k).contains (namespacePattern n)

/-- Modelled from the spec: the cache-invalidation table of section 4.3,
defined from the specification's words to compare against
`cacheDeletePatterns`, which embeds `airport/signals.py`. -/
def specCacheMap : ResourceKind → List CacheNamespace
  | .airport => [.airport, .route, .flight, .ticket]
  | .airplaneType => [.airplane_type, .flight, .airplane]
  | .airplane => [.airplane, .flight]
  | .crew => [.crew, .flight]
  | .route => [.route, .flight, .ticket]
  | .flight => [.flight, .crew]
  | .order => [.order, .ticket]
  | .ticket => [.ticket, .flight, .order]

/-- C7 counterexample: the code's fan-out disagrees with the spec's table.
Mutating an Airport purges nothing but the airport namespace, although the
spec lists route (and flight and ticket); mutating a Flight does not purge
the crew namespace the spec lists, purging route instead. -/
theorem cache_fanout_counterexample :
    CacheNamespace.route ∈ specCacheMap .airport
    ∧ purgesNamespace .airport .route = false
    ∧ CacheNamespace.crew ∈ specCacheMap .flight
    ∧ purgesNamespace .flight .crew = false
    ∧ purgesNamespace .flight .route = true := by decide

/-- C7 amended: mutating an entity purges exactly the namespaces of the
following table and no others: Airport purges airport only; AirplaneType
purges airplane_type and flight; Airplane purges airplane and flight; Crew
purges crew and flight; Route purges route only; Flight purges flight and
route; Order purges order and ticket; Ticket purges ticket and flight. In
particular an Airplane mutation purges airplane and flight while leaving
route untouched, as the claim's example states. -/
theorem cache_fanout_table :
    ∀ (k : ResourceKind) (n : CacheNamespace),
      purgesNamespace k n = true ↔
        (k, n) ∈ ([(.airport, .airport),
          (.airplaneType, .airplane_type), (.airplaneType, .flight),
          (.airplane, .airplane), (.airplane, .flight),
          (.crew, .crew), (.crew, .flight),
          (.route, .route),
          (.flight, .flight), (.flight, .route),
          (.order, .order), (.order, .ticket),
          (.ticket, .ticket), (.ticket, .flight)] :
          List (ResourceKind × CacheNamespace)) := by decide

/-- The requesting user as the queryset methods see it: identity and the
`is_staff` flag. -/
structure UserRec where
  id : Nat
  is_staff : Bool
deriving DecidableEq, Repr

/-- Owner of an order row, by joining the order table (`order__user`). -/
def orderOwner (store : Store) (orderId : Nat) : Option Nat :=
  (store.orders.find? fun o => o.id == orderId).map fun o => o.user

/-- Method `OrderViewSet.get_queryset` of `airport/views.py`: a non-staff
user sees only `Order.objects.filter(user=request.user)`; staff see all. -/
def orderQueryset (u : UserRec) (store : Store) : List OrderRec :=
  if u.is_staff then store.orders
  else store.orders.filter fun o => o.user == u.id

/-- Method `TicketViewSet.get_queryset` of `airport/views.py`: a non-staff
user sees only `Ticket.objects.filter(order__user=request.user)`; staff see
all. -/
def ticketQueryset (u : UserRec) (store : Store) : List TicketRec :=
  if u.is_staff then store.tickets
  else store.tickets.filter fun t => orderOwner store t.orderId == some u.id

/-- Status of a retrieve: DRF's `get_object` raises `Http404` when the
looked-up id is not in the view's queryset, so an object outside the
user-scoped queryset answers 404 rather than 403. -/
def orderRetrieve (u : UserRec) (orderId : Nat) (store : Store) : Nat :=
  if (orderQueryset u store).any fun o => o.id == orderId then 200 else 404

/-- Retrieve of a ticket, against the ticket queryset. -/
def ticketRetrieve (u : UserRec) (ticketId : Nat) (store : Store) : Nat :=
  if (ticketQueryset u store).any fun t => t.id == ticketId then 200 else 404

/-- C9: object-level denial on Order and Ticket is reported as 404: a
non-staff user retrieving a ticket or order that only belongs to some other
user receives 404, while a staff user can retrieve any existing ticket or
order (200). -/
theorem owner_scoped_retrieve (u : UserRec) (store : Store)
    (ticketId orderId : Nat) :
    (u.is_staff = false →
      (∀ t ∈ store.tickets, t.id = ticketId →
        orderOwner store t.orderId ≠ some u.id) →
      ticketRetrieve u ticketId store = 404)
    ∧ (u.is_staff = true → (∃ t ∈ store.tickets, t.id = ticketId) →
      ticketRetrieve u ticketId store = 200)
    ∧ (u.is_staff = false →
      (∀ o ∈ store.orders, o.id = orderId → o.user ≠ u.id) →
      orderRetrieve u orderId store = 404)
    ∧ (u.is_staff = true → (∃ o ∈ store.orders, o.id = orderId) →
      orderRetrieve u orderId store = 200) := by
  refine ⟨fun hs h => ?_, fun hs h => ?_, fun hs h => ?_, fun hs h => ?_⟩
  · have hany : ((ticketQueryset u store).any fun t => t.id == ticketId) = false := by
      rw [List.any_eq_false]
      intro t htq
      simp only [ticketQueryset, hs, Bool.false_eq_true, if_false,
        List.mem_filter] at htq
      simp only [beq_iff_eq]
      exact fun hid => h t htq.1 hid (by simpa using htq.2)
    simp [ticketRetrieve, hany]
  · rcases h with ⟨t, ht, hid⟩
    have hany : ((ticketQueryset u store).any fun t => t.id == ticketId) = true := by
      rw [List.any_eq_true]
      exact ⟨t, by simp [ticketQueryset, hs, ht], by simp [hid]⟩
    simp [ticketRetrieve, hany]
  · have hany : ((orderQueryset u store).any fun o => o.id == orderId) = false := by
      rw [List.any_eq_false]
      intro o hoq
      simp only [orderQueryset, hs, Bool.false_eq_true, if_false,
        List.mem_filter] at hoq
      simp only [beq_iff_eq]
      exact fun hid => h o hoq.1 hid (by simpa using hoq.2)
    simp [orderRetrieve, hany]
  · rcases h with ⟨o, ho, hid⟩
    have hany : ((orderQueryset u store).any fun o => o.id == orderId) = true := by
      rw [List.any_eq_true]
      exact ⟨o, by simp [orderQueryset, hs, ho], by simp [hid]⟩
    simp [orderRetrieve, hany]

theorem owner_scoped_retrieve_witness :
    ticketRetrieve ⟨7, false⟩ 1 ⟨[⟨1, 9⟩], [⟨1, 1, 1, 1, 1⟩]⟩ = 404
    ∧ orderRetrieve ⟨7, false⟩ 1 ⟨[⟨1, 9⟩], [⟨1, 1, 1, 1, 1⟩]⟩ = 404
    ∧ ticketRetrieve ⟨3, true⟩ 1 ⟨[⟨1, 9⟩], [⟨1, 1, 1, 1, 1⟩]⟩ = 200 :=
  ⟨(owner_scoped_retrieve ⟨7, false⟩ ⟨[⟨1, 9⟩], [⟨1, 1, 1, 1, 1⟩]⟩ 1 1).1
      rfl (by decide),
   (owner_scoped_retrieve ⟨7, false⟩ ⟨[⟨1, 9⟩], [⟨1, 1, 1, 1, 1⟩]⟩ 1 1).2.2.1
      rfl (by decide),
   (owner_scoped_retrieve ⟨3, true⟩ ⟨[⟨1, 9⟩], [⟨1, 1, 1, 1, 1⟩]⟩ 1 1).2.1
      rfl (by decide)⟩

end AirportApi
